import Mathlib

/-
Verification development for the 716Stonks Activity client
(src/DCActivity/src/App.jsx). The JavaScript source is shallowly embedded:
pure helper functions become Lean functions over explicit inputs, the
global host context (window.location, Vite env vars) becomes a HostCtx
record, per-origin network outcomes become explicit Except values, and
React state writes become explicit state passing over a St record.
JS strings are Lean String values and JS string operations are
re-implemented over the underlying character lists so that every
definition evaluates by kernel reduction.
-/

namespace Stonks

/-! JS string primitives, implemented over List Char. -/

def leadsWith : List Char → List Char → Bool
  | [], _ => true
  | _ :: _, [] => false
  | p :: ps, c :: cs => p == c && leadsWith ps cs

def hasSub (pat : List Char) : List Char → Bool
  | [] => pat.isEmpty
  | c :: cs => leadsWith pat (c :: cs) || hasSub pat cs

/-- Models JS String.prototype.includes. -/
def jsIncludes (s pat : String) : Bool := hasSub pat.data s.data

/-- Models JS String.prototype.endsWith. -/
def jsEndsWith (s suf : String) : Bool := leadsWith suf.data.reverse s.data.reverse

def replaceFirstL (pat repl : List Char) : List Char → List Char
  | [] => if leadsWith pat [] then repl else []
  | c :: cs =>
    if leadsWith pat (c :: cs) then repl ++ (c :: cs).drop pat.length
    else c :: replaceFirstL pat repl cs

/-- Models JS String.prototype.replace with a plain string pattern,
which rewrites only the first occurrence. -/
def jsReplaceFirst (s pat repl : String) : String := ⟨replaceFirstL pat.data repl.data s.data⟩

def isWS (c : Char) : Bool := c == ' ' || c == '\t' || c == '\n' || c == '\r'

/-- Models JS String.prototype.trim (over the common whitespace characters). -/
def jsTrim (s : String) : String :=
  ⟨((s.data.dropWhile isWS).reverse.dropWhile isWS).reverse⟩

/-- Models JS String.prototype.toUpperCase on ASCII data. -/
def jsToUpper (s : String) : String := ⟨s.data.map Char.toUpper⟩

/-- Models JS String.prototype.toLowerCase on ASCII data. -/
def jsToLower (s : String) : String := ⟨s.data.map Char.toLower⟩

/-- Models JS String.prototype.slice(0, 180), used to truncate error bodies. -/
def jsSlice180 (s : String) : String := ⟨s.data.take 180⟩

/-- Matches the regex test in pickLaunchUserId: one or more digits. -/
def isAllDigitsStr (s : String) : Bool := !s.data.isEmpty && s.data.all Char.isDigit

/-! JSON values as delivered by res.json(), with JS truthiness.
Numbers are modeled as integers, which covers every field the verified
claims inspect. -/

inductive JsonVal where
  | nullV
  | boolV (b : Bool)
  | numV (n : Int)
  | strV (s : String)
  | arrV (elems : List JsonVal)
  | objV (fields : List (String × JsonVal))

def lookupField : List (String × JsonVal) → String → Option JsonVal
  | [], _ => none
  | (k, v) :: rest, key => if k == key then some v else lookupField rest key

/-- Property access j.k; undefined (missing field or non-object) is none. -/
def getField : JsonVal → String → Option JsonVal
  | .objV fs, key => lookupField fs key
  | _, _ => none

/-- Optional chaining o?.k over a possibly null or undefined base. -/
def optField (o : Option JsonVal) (key : String) : Option JsonVal :=
  match o with
  | some v => getField v key
  | none => none

/-- JS truthiness of a JSON value. -/
def truthy : JsonVal → Bool
  | .nullV => false
  | .boolV b => b
  | .numV n => n != 0
  | .strV s => s != ""
  | .arrV _ => true
  | .objV _ => true

/-- Models the pattern x || null used when storing fetched payloads. -/
def jsOrNull (v : JsonVal) : Option JsonVal := if truthy v then some v else none

def truthyOpt : Option JsonVal → Bool
  | some v => truthy v
  | none => false

mutual
def jsToString : JsonVal → String
  | .nullV => "null"
  | .boolV true => "true"
  | .boolV false => "false"
  | .numV n => toString n
  | .strV s => s
  | .arrV xs => jsToStringList xs
  | .objV _ => "[object Object]"

def jsToStringList : List JsonVal → String
  | [] => ""
  | [x] => jsToString x
  | x :: y :: rest => jsToString x ++ "," ++ jsToStringList (y :: rest)
end

/-- Models String(x || "") over a possibly missing field value. -/
def jsValOrEmpty : Option JsonVal → String
  | some v => if truthy v then jsToString v else ""
  | none => ""

/-- Models String(x || d) for a string default d. -/
def jsValOr (o : Option JsonVal) (d : String) : String :=
  match o with
  | some v => if truthy v then jsToString v else d
  | none => d

/-- Models String(m || d) where m is an error message string. Promise
rejection reasons are modeled by their message strings; the middle
alternative of the source chain String(reason?.message || reason || d),
which stringifies the raw Error object, is collapsed into the message. -/
def errTextOr (m d : String) : String := if m = "" then d else m

/-! OriginResolver: buildApiBases, inferDashboardBase and the API_BASES
initializer from App.jsx lines 8-39. The runtime host context (window
presence, location fields, VITE_API_BASE) is passed explicitly. -/

structure HostCtx where
  hasWindow : Bool
  protocol : String
  hostname : String
  envApiBase : String

/-- normalizeBase from the source: strip every trailing slash. -/
def normalizeBase (v : String) : String := ⟨(v.data.reverse.dropWhile (· == '/')).reverse⟩

/-- RAW_API_BASE = String(import.meta.env.VITE_API_BASE || "").trim(). -/
def RAW_API_BASE (ctx : HostCtx) : String := jsTrim ctx.envApiBase

def isDiscordActivityHost (ctx : HostCtx) : Bool :=
  ctx.hasWindow && jsEndsWith ctx.hostname ".discordsays.com"

/-- buildApiBases from the source. -/
def buildApiBases (ctx : HostCtx) : List String :=
  let envBase := normalizeBase (RAW_API_BASE ctx)
  if isDiscordActivityHost ctx then [""]
  else if envBase = "" then [""]
  else [envBase]

/-- inferDashboardBase from the source. -/
def inferDashboardBase (ctx : HostCtx) : String :=
  if !ctx.hasWindow then ""
  else if !jsIncludes ctx.hostname "-activity." then ""
  else normalizeBase (ctx.protocol ++ "//" ++ jsReplaceFirst ctx.hostname "-activity." ".")

/-- The API_BASES module initializer from the source. -/
def API_BASES (ctx : HostCtx) : List String :=
  let inferred := inferDashboardBase ctx
  let bases := buildApiBases ctx
  if inferred ≠ "" then
    let filtered := bases.filter (fun b => b != inferred && b != "")
    inferred :: filtered ++ [""]
  else bases

/-! ResilientFetcher: fetchJson, fetchJsonWithFallback and
postJsonWithFallback from App.jsx lines 74-136. One HTTP exchange is an
HttpResp record; a per-origin attempt is an Except value (a transport
error message, or a response). -/

structure HttpResp where
  ok : Bool
  status : Nat
  statusText : String
  contentType : String
  bodyText : String
  jsonBody : JsonVal

def sq : String := String.singleton (Char.ofNat 39)

/-- fetchJson from the source: require an HTTP success status and a JSON
content type, otherwise raise the corresponding truncated error message. -/
def fetchJson (r : HttpResp) : Except String JsonVal :=
  let contentType := jsToLower r.contentType
  if !r.ok then
    .error (toString r.status ++ " " ++ r.statusText ++ ": " ++ jsSlice180 r.bodyText)
  else if !jsIncludes contentType "application/json" then
    .error ("Expected JSON but got " ++ sq ++
      (if contentType = "" then "unknown" else contentType) ++ sq ++ ": " ++
      jsSlice180 r.bodyText)
  else .ok r.jsonBody

/-- The for-loop shared by both fallback helpers: walk the per-origin
outcomes in order, stop at the first success, and record the most recent
error together with the number of attempts made. -/
def tryOrigins {α : Type} : List (Except String α) → Option α × Option String × Nat
  | [] => (none, none, 0)
  | .ok a :: _ => (some a, none, 1)
  | .error e :: rest =>
    let (r, l, n) := tryOrigins rest
    (r, l <|> some e, n + 1)

/-- The restricted-host rewrite applied by fetchJsonWithFallback when
every origin failed, built from the last raw error message. -/
def activityRewrite (rawDetail : String) : String :=
  let detail := jsTrim rawDetail
  if detail ≠ "" then
    "Activity API proxy failed (" ++ detail ++
      "). Check Discord URL mapping: /api -> 716stonks.cfm1.uk/api"
  else
    "Activity API proxy is not configured. Add Discord URL mapping: /api -> 716stonks.cfm1.uk/api"

/-- fetchJsonWithFallback from the source, over the ordered list of
per-origin outcomes (each outcome is fetchJson applied to that origin,
or a transport error). Also returns how many origins were attempted. -/
def fetchJsonWithFallback (ctx : HostCtx) (outcomes : List (Except String JsonVal)) :
    Except String JsonVal × Nat :=
  match tryOrigins outcomes with
  | (some a, _, n) => (.ok a, n)
  | (none, lastErr, n) =>
    if isDiscordActivityHost ctx then
      (.error (activityRewrite (lastErr.getD "")), n)
    else
      (.error (lastErr.getD "Failed to load data"), n)

/-- The loop of postJsonWithFallback from the source: identical
per-origin criteria, but on total failure the last raw error is thrown
with no host-specific rewrite. -/
def postLoop {α : Type} (outcomes : List (Except String α)) : Except String α × Nat :=
  match tryOrigins outcomes with
  | (some a, _, n) => (.ok a, n)
  | (none, lastErr, n) => (.error (lastErr.getD "Failed to post data"), n)

/-- postJsonWithFallback from the source: the request body is
JSON.stringify(body || \x7b\x7d), so a missing body is sent as the empty
object; outcomesOf gives the per-origin outcomes for the body actually
sent. -/
def postJsonWithFallback {α : Type} (body : Option JsonVal)
    (outcomesOf : JsonVal → List (Except String α)) : Except String α × Nat :=
  postLoop (outcomesOf (body.getD (JsonVal.objV [])))

/-! changePct from App.jsx lines 51-56, over JS number semantics. A raw
JS value is modeled by its truthiness and its Number() coercion; finite
numbers are exact rationals. -/

inductive JSNum where
  | nan
  | posInf
  | negInf
  | fin (q : ℚ)

structure JSVal where
  falsy : Bool
  toNum : JSNum

/-- Number(v || 0): a falsy value is replaced by 0 before coercion. -/
def jsOrZeroNum (v : JSVal) : JSNum := if v.falsy then .fin 0 else v.toNum

/-- Number.isFinite on a coerced value. -/
def jsFiniteNum : JSNum → Bool
  | .fin _ => true
  | _ => false

/-- The strict comparison r === 0 on a coerced value. -/
def jsEqZero : JSNum → Bool
  | .fin q => decide (q = 0)
  | _ => false

def finPart : JSNum → ℚ
  | .fin q => q
  | _ => 0

/-- changePct from the source. -/
def changePct (current reference : JSVal) : ℚ :=
  let c := jsOrZeroNum current
  let r := jsOrZeroNum reference
  if !jsFiniteNum c || !jsFiniteNum r || jsEqZero r then 0
  else ((finPart c - finPart r) / finPart r) * 100

/-- Number.isInteger on a coerced value, used by submitDualGuess. -/
def jsIsInteger : JSNum → Bool
  | .fin q => decide (q.den = 1)
  | _ => false

/-! IdentityResolver: pickLaunchName, pickLaunchUserId, discordAvatarUrl
and detectViewerIdentity from App.jsx lines 138-232. The runtime
environment (query parameters, host, env configuration, and the outcome
of each awaited SDK / network step) is an IdEnv record; a step that the
source awaits inside the try block is an Except value whose error is the
thrown message. -/

structure Identity where
  id : String
  name : String
  avatar_url : String
  reason : String

structure IdEnv where
  hasWindow : Bool
  queryParams : String → Option String
  hostname : String
  clientId : String
  redirectUriCfg : String
  sdkReady : Except String Unit
  sdkAuthorize : Except String JsonVal
  tokenFetch : Except String JsonVal
  sdkAuthenticate : Except String JsonVal

/-- The chain a || b || ... || "" over URLSearchParams.get results:
the first non-null, non-empty string wins. -/
def firstTruthyStr : List (Option String) → String
  | [] => ""
  | some s :: rest => if s = "" then firstTruthyStr rest else s
  | none :: rest => firstTruthyStr rest

/-- pickLaunchName from the source. -/
def pickLaunchName (env : IdEnv) : String :=
  if !env.hasWindow then ""
  else jsTrim (firstTruthyStr
    [env.queryParams "username", env.queryParams "global_name",
     env.queryParams "display_name", env.queryParams "user_name"])

/-- The raw id candidate read by pickLaunchUserId before validation. -/
def launchIdRaw (env : IdEnv) : String :=
  jsTrim (firstTruthyStr [env.queryParams "user_id", env.queryParams "id"])

/-- raw.startsWith("+") ? raw.slice(1) : raw. -/
def stripLeadingPlus (s : String) : String :=
  if leadsWith ['+'] s.data then ⟨s.data.drop 1⟩ else s

/-- pickLaunchUserId from the source. -/
def pickLaunchUserId (env : IdEnv) : String :=
  if !env.hasWindow then ""
  else
    let raw := launchIdRaw env
    if raw = "" then ""
    else
      let normalized := stripLeadingPlus raw
      if isAllDigitsStr normalized then normalized else ""

/-- discordAvatarUrl from the source. -/
def discordAvatarUrl (userId avatarHash : String) : String :=
  let uid := jsTrim userId
  let av := jsTrim avatarHash
  if uid = "" || av = "" then ""
  else "https://cdn.discordapp.com/avatars/" ++ uid ++ "/" ++ av ++ ".png?size=128"

def emptyIdentity (reason : String) : Identity :=
  { id := "", name := "", avatar_url := "", reason := reason }

/-- The catch block of detectViewerIdentity. -/
def sdkCatch (m : String) : Identity :=
  let detail := jsTrim m
  emptyIdentity (if detail ≠ "" then "sdk-init-failed: " ++ detail else "sdk-init-failed")

/-- The binding const user = me?.user || \x7b\x7d from the source. -/
def userOf (me : JsonVal) : JsonVal :=
  match getField me "user" with
  | some v => if truthy v then v else JsonVal.objV []
  | none => JsonVal.objV []

/-- detectViewerIdentity from the source. Inside the SDK branch the host
is already known to end in .discordsays.com, so redirectUri is "" and is
omitted from both the authorize payload and the token query, exactly as
in the source. -/
def detectViewerIdentity (env : IdEnv) : Identity :=
  let launchName := pickLaunchName env
  let launchId := pickLaunchUserId env
  if launchName ≠ "" then
    { id := launchId, name := launchName, avatar_url := "", reason := "query-param" }
  else if !env.hasWindow then emptyIdentity "no-window"
  else if !jsEndsWith env.hostname ".discordsays.com" then
    emptyIdentity "not-discord-activity-host"
  else if env.clientId = "" then emptyIdentity "missing-client-id"
  else
    match env.sdkReady with
    | .error m => sdkCatch m
    | .ok _ =>
      match env.sdkAuthorize with
      | .error m => sdkCatch m
      | .ok auth =>
        let code := jsTrim (jsValOrEmpty (getField auth "code"))
        if code = "" then emptyIdentity "sdk-authorize-no-code"
        else
          match env.tokenFetch with
          | .error m => sdkCatch m
          | .ok token =>
            let accessToken := jsTrim (jsValOrEmpty (getField token "access_token"))
            if accessToken = "" then emptyIdentity "oauth-no-access-token"
            else
              match env.sdkAuthenticate with
              | .error m => sdkCatch m
              | .ok me =>
                let user := userOf me
                let userId := jsTrim (jsValOrEmpty (getField user "id"))
                let n1 := jsTrim (jsValOrEmpty (getField user "global_name"))
                let n2 := jsTrim (jsValOrEmpty (getField user "display_name"))
                let n3 := jsTrim (jsValOrEmpty (getField user "username"))
                let name := if n1 ≠ "" then n1 else if n2 ≠ "" then n2 else n3
                if name ≠ "" then
                  { id := userId, name := name,
                    avatar_url := discordAvatarUrl userId
                      (jsValOrEmpty (getField user "avatar")),
                    reason := "sdk-authenticated" }
                else emptyIdentity "sdk-auth-user-empty"

/-! The React view state touched by the verified operations, as one
record St, and the state-transforming embeddings of
refreshStatusAndDual, load, submitDualGuess and the polling effects. -/

structure St where
  error : String
  loading : Bool
  stocks : List JsonVal
  stats : Option JsonVal
  shopItems : List JsonVal
  shopBucket : Option JsonVal
  statusData : Option JsonVal
  statusError : String
  dualStatus : Option JsonVal
  dualError : String
  lastUpdated : String
  tradeMsg : String
  dualGuess : String
  dualBusy : Bool

/-- The shared Promise.allSettled write block for the status and duel
sub-fetches (App.jsx lines 282-295 and 328-341): each settled result is
applied to its own pair of state fields, independently of the other. -/
def applyStatusDual (statusRes dualRes : Except String JsonVal) (s : St) : St :=
  let s1 :=
    match statusRes with
    | .ok v => { s with statusData := jsOrNull v, statusError := "" }
    | .error m => { s with statusData := none, statusError := errTextOr m "Failed to load status" }
  match dualRes with
  | .ok v => { s1 with dualStatus := jsOrNull v, dualError := "" }
  | .error m => { s1 with dualStatus := none, dualError := errTextOr m "Failed to load DUAL status" }

/-- refreshStatusAndDual from the source. Note that it performs its
state writes with no mounted or cancellation guard. -/
def refreshStatusAndDual (viewerId : String) (statusRes dualRes : Except String JsonVal)
    (s : St) : St :=
  if viewerId = "" then
    { s with statusData := none, statusError := "", dualStatus := none, dualError := "" }
  else applyStatusDual statusRes dualRes s

/-- Promise.all over the stocks and dashboard-stats fetches: rejects
with the first failing outcome. -/
def allBoth (a b : Except String JsonVal) : Except String (JsonVal × JsonVal) :=
  match a with
  | .error e => .error e
  | .ok x =>
    match b with
    | .error e => .error e
    | .ok y => .ok (x, y)

/-- Array.isArray(j.k) ? j.k : []. -/
def jsArrayField (j : JsonVal) (key : String) : List JsonVal :=
  match getField j key with
  | some (.arrV xs) => xs
  | _ => []

/-- The polling round `load` from App.jsx lines 302-356. The mounted
flag is the value of the closure variable at the time the round's
results are applied; a round that resolves entirely after teardown sees
it as false at every checkpoint. The five awaited fetches are passed as
outcomes; nowStr is the formatted current time. -/
def load (mounted : Bool) (viewerId nowStr : String)
    (stocksR statsR shopR statusR dualR : Except String JsonVal) (s : St) : St :=
  let fin := fun (st : St) => if mounted then { st with loading := false } else st
  match allBoth stocksR statsR with
  | .error m =>
    fin (if mounted then { s with error := errTextOr m "Failed to load data" } else s)
  | .ok (sj, tj) =>
    if !mounted then fin s
    else
      let s1 := { s with stocks := jsArrayField sj "stocks", stats := jsOrNull tj }
      let afterShop : Option St :=
        match shopR with
        | .ok shj =>
          if !mounted then none
          else some { s1 with shopItems := jsArrayField shj "items",
                              shopBucket := getField shj "bucket" }
        | .error _ =>
          if !mounted then none
          else some { s1 with shopItems := [], shopBucket := none }
      match afterShop with
      | none => fin s1
      | some s2 =>
        if viewerId ≠ "" then
          if !mounted then fin s2
          else
            let s3 := applyStatusDual statusR dualR s2
            fin { s3 with lastUpdated := nowStr, error := "" }
        else
          fin { s2 with statusData := none, statusError := "",
                        dualStatus := none, dualError := "",
                        lastUpdated := nowStr, error := "" }

/-- The duel tab polling round (App.jsx lines 401-419): the run closure
returns early when cancelled or busy at tick time, then awaits
refreshStatusAndDual, which applies its writes without rechecking
anything — cancelledAtResolve is never consulted because the source has
no guard after the await. -/
def dualPollRound (cancelledAtStart cancelledAtResolve dualBusy : Bool)
    (viewerId : String) (statusRes dualRes : Except String JsonVal) (s : St) : St :=
  if cancelledAtStart || dualBusy then s
  else refreshStatusAndDual viewerId statusRes dualRes s

/-- String(dualStatus?.current_game?.code || "").trim().toUpperCase(). -/
def currentGameCode (s : St) : String :=
  jsToUpper (jsTrim (jsValOrEmpty (optField (optField s.dualStatus "current_game") "code")))

/-- submitDualGuess from App.jsx lines 587-613. guessNum is the Number()
coercion of the dualGuess input field; postR is the outcome of the
postJsonWithFallback call; statusR and dualR feed the trailing
refreshStatusAndDual. -/
def submitDualGuess (viewerId : String) (guessNum : JSNum)
    (postR statusR dualR : Except String JsonVal) (s : St) : St :=
  if viewerId = "" then s
  else
    let code := currentGameCode s
    if code = "" then s
    else if !jsIsInteger guessNum then
      { s with tradeMsg := "DUAL guess failed: enter an integer." }
    else
      match postR with
      | .ok result =>
        if truthyOpt (getField result "ok") then
          let hint := jsTrim (jsValOrEmpty (getField result "hint"))
          let s1 := { s with
            tradeMsg := if hint ≠ "" then "DUAL guess result: " ++ hint ++ "."
                        else "DUAL guess submitted.",
            dualGuess := "" }
          let s2 := refreshStatusAndDual viewerId statusR dualR s1
          { s2 with dualBusy := false }
        else
          { s with
            tradeMsg := "DUAL guess failed: " ++
              errTextOr (jsValOr (getField result "error") "Failed to submit guess")
                "Unknown error",
            dualBusy := false }
      | .error m =>
        { s with tradeMsg := "DUAL guess failed: " ++ errTextOr m "Unknown error",
                 dualBusy := false }

/-! DuelClient autonomous matchmaking: the auto-match effect from
App.jsx lines 615-639. Lobby listings are structured records (the JS
field coercions String(x || "") and Number(x || 0) collapse on these
typed fields); current_game keeps its JS truthiness check. -/

structure LobbyRow where
  code : String
  status : String
  host_user_id : String
  player_count : Int

structure DualSnapshot where
  current_game : Option JsonVal
  open_lobbies : List LobbyRow

inductive AutoAction where
  | joinRoom (code : String)
  | createRoom

/-- The lobby scan from the effect body. -/
def findJoinable (viewerId : String) (ls : List LobbyRow) : Option LobbyRow :=
  ls.find? (fun l =>
    l.status == "lobby" && l.host_user_id != viewerId && decide (1 ≤ l.player_count))

/-- One evaluation of the auto-match effect, at clock time now, with the
throttle timestamp lastAt held in dualAutoActionAtRef. Returns the
network-issuing action fired (if any) and the updated timestamp; the
timestamp is written before the action is dispatched, exactly as in the
source. -/
def dualAutoTick (activeTab viewerId : String) (dualBusy : Bool)
    (dualStatus : Option DualSnapshot) (lastAt now : Nat) : Option AutoAction × Nat :=
  if activeTab ≠ "dual" then (none, lastAt)
  else if viewerId = "" then (none, lastAt)
  else if dualBusy then (none, lastAt)
  else
    match dualStatus with
    | none => (none, lastAt)
    | some ds =>
      if now - lastAt < 2500 then (none, lastAt)
      else if truthyOpt ds.current_game then (none, lastAt)
      else
        match findJoinable viewerId ds.open_lobbies with
        | some l => (some (.joinRoom l.code), now)
        | none => (some .createRoom, now)

/-! Concrete states used by witnesses and counterexamples. -/

def st0 : St :=
  { error := "", loading := true, stocks := [], stats := none, shopItems := [],
    shopBucket := none, statusData := none, statusError := "", dualStatus := none,
    dualError := "", lastUpdated := "-", tradeMsg := "", dualGuess := "",
    dualBusy := false }

def stG : St :=
  { st0 with
    dualStatus := some (.objV [("current_game", .objV [("code", .strV "room1")])]),
    dualGuess := "50" }

def envNoWin : IdEnv :=
  ⟨false, fun _ => none, "", "", "", Except.ok (), Except.ok (JsonVal.objV []),
   Except.ok (JsonVal.objV []), Except.ok (JsonVal.objV [])⟩

def envLaunch : IdEnv :=
  ⟨true, fun k => if k = "username" then some "alice" else if k = "user_id" then some "+123" else none,
   "example.com", "", "", Except.ok (), Except.ok (JsonVal.objV []),
   Except.ok (JsonVal.objV []), Except.ok (JsonVal.objV [])⟩

/-! Helper lemmas about the shared origin loop. -/

theorem tryOrigins_succ {α : Type} (errs : List String) (a : α)
    (post : List (Except String α)) :
    ∃ l, tryOrigins (errs.map Except.error ++ Except.ok a :: post)
      = (some a, l, errs.length + 1) := by
  induction errs with
  | nil => exact ⟨none, rfl⟩
  | cons e es ih =>
    obtain ⟨l, hl⟩ := ih
    exact ⟨l <|> some e, by simp [tryOrigins, hl]⟩

theorem tryOrigins_allfail {α : Type} (errs : List String) (e : String) :
    tryOrigins ((errs.map Except.error : List (Except String α)) ++ [Except.error e])
      = (none, some e, errs.length + 1) := by
  induction errs with
  | nil => simp [tryOrigins]
  | cons x xs ih => simp [tryOrigins, ih]

/-- C1: fetchJsonWithFallback tries origins in list order; the first
origin yielding an HTTP-success, JSON content-type response wins and
short-circuits the rest; with N origins of which only the last succeeds
the result is that response after exactly N attempts; with all N failing
the surfaced error is the last attempt error, rewritten on the
restricted host. -/
theorem c1_fetch_fallback (ctx : HostCtx) (errs : List String) (a : JsonVal)
    (post : List (Except String JsonVal)) (e : String) (r : HttpResp) :
    fetchJsonWithFallback ctx (errs.map Except.error ++ Except.ok a :: post)
      = (Except.ok a, errs.length + 1)
    ∧ fetchJsonWithFallback ctx ((errs ++ [e]).map Except.error)
      = (Except.error (if isDiscordActivityHost ctx then activityRewrite e else e),
          errs.length + 1)
    ∧ (r.ok = true → jsIncludes (jsToLower r.contentType) "application/json" = true →
        fetchJson r = Except.ok r.jsonBody) := by
  refine ⟨?_, ?_, ?_⟩
  · obtain ⟨l, hl⟩ := tryOrigins_succ errs a post
    simp [fetchJsonWithFallback, hl]
  · have h := tryOrigins_allfail (α := JsonVal) errs e
    cases hD : isDiscordActivityHost ctx <;>
      simp [fetchJsonWithFallback, List.map_append, h, hD]
  · intro h1 h2
    simp [fetchJson, h1, h2]

/-- Witness for C1 at one origin list with two failures then a success,
and at one concrete JSON-success response. -/
theorem c1_fetch_fallback_witness :
    fetchJsonWithFallback ⟨true, "https:", "a.b", ""⟩
        [Except.error "e1", Except.error "e2", Except.ok (JsonVal.numV 7)]
      = (Except.ok (JsonVal.numV 7), 3)
    ∧ fetchJson ⟨true, 200, "OK", "application/json", "", JsonVal.numV 7⟩
      = Except.ok (JsonVal.numV 7) := by
  have h := c1_fetch_fallback ⟨true, "https:", "a.b", ""⟩ ["e1", "e2"] (JsonVal.numV 7)
    [] "e" ⟨true, 200, "OK", "application/json", "", JsonVal.numV 7⟩
  exact ⟨h.1, h.2.2 rfl (by decide)⟩

/-- C2 counterexample: a host name that ends in .discordsays.com but
contains the -activity. marker does not resolve to the single-element
list consisting of the empty string: the inferred sibling origin is put
in front of it. -/
theorem c2_restricted_origins_cex :
    API_BASES ⟨true, "https:", "a-activity.discordsays.com", ""⟩
      = ["https://a.discordsays.com", ""] := by decide

/-- C2 as amended: for every host context with a window whose host name
ends in the restricted-webview suffix and does not contain the
-activity. marker, the candidate list is exactly the single empty-string
relative candidate, regardless of the configured fallback origin. -/
theorem c2_restricted_origins (ctx : HostCtx) (hW : ctx.hasWindow = true)
    (hS : jsEndsWith ctx.hostname ".discordsays.com" = true)
    (hI : jsIncludes ctx.hostname "-activity." = false) :
    API_BASES ctx = [""] := by
  simp [API_BASES, inferDashboardBase, buildApiBases, isDiscordActivityHost, hW, hS, hI]

/-- Witness for C2 at a concrete restricted host with a configured
fallback origin. -/
theorem c2_restricted_origins_witness :
    API_BASES ⟨true, "https:", "123.discordsays.com", "https://x.y/"⟩ = [""] :=
  c2_restricted_origins ⟨true, "https:", "123.discordsays.com", "https://x.y/"⟩
    rfl (by decide) (by decide)

/-- C3 counterexample: with no window restriction, no -activity. marker
and a configured fallback origin, the candidate list is that single
fallback origin and does not contain the empty-string candidate. -/
theorem c3_contains_relative_cex :
    (API_BASES ⟨true, "https:", "example.com", "https://api.example.com"⟩).contains ""
      = false := by decide

/-- C3 as amended: the candidate list is never empty, and it either
contains the empty-string relative candidate or is exactly the single
configured (normalized) fallback origin. -/
theorem c3_nonempty_origins (ctx : HostCtx) :
    (API_BASES ctx).isEmpty = false
    ∧ ("" ∈ API_BASES ctx ∨ API_BASES ctx = [normalizeBase (RAW_API_BASE ctx)]) := by
  unfold API_BASES
  by_cases hInf : inferDashboardBase ctx ≠ ""
  · simp [hInf]
  · unfold buildApiBases
    by_cases hD : isDiscordActivityHost ctx
    · simp [hInf, hD]
    · by_cases hE : normalizeBase (RAW_API_BASE ctx) = ""
      · simp [hInf, hD, hE]
      · simp [hInf, hD, hE]

/-- C4 counterexample: on total failure the POST loop surfaces the raw
last error on every host; the restricted-host rewrite that the GET path
applies to the very same last error is a different message, so the
claimed rewrite does not happen for POST. -/
theorem c4_post_rewrite_cex :
    postLoop [(Except.error "boom" : Except String JsonVal)] = (Except.error "boom", 1)
    ∧ (fetchJsonWithFallback ⟨true, "https:", "1.discordsays.com", ""⟩
        [Except.error "boom"]).1
      = Except.error ("Activity API proxy failed (boom). " ++
          "Check Discord URL mapping: /api -> 716stonks.cfm1.uk/api") := by
  exact ⟨rfl, rfl⟩

/-- C4 as amended: postJsonWithFallback follows the same per-origin
success and short-circuit criteria as the GET path, and the request body
defaults to the empty JSON object when none is given; but when every
origin fails it propagates the last raw error unmodified on every host,
with no restricted-host rewrite. -/
theorem c4_post_fallback (errs : List String) (e : String) (a : JsonVal)
    (post : List (Except String JsonVal))
    (f : JsonVal → List (Except String JsonVal)) :
    postLoop (errs.map Except.error ++ Except.ok a :: post)
      = (Except.ok a, errs.length + 1)
    ∧ postLoop (((errs ++ [e]).map Except.error : List (Except String JsonVal)))
      = (Except.error e, errs.length + 1)
    ∧ postJsonWithFallback none f = postLoop (f (JsonVal.objV [])) := by
  refine ⟨?_, ?_, rfl⟩
  · obtain ⟨l, hl⟩ := tryOrigins_succ errs a post
    simp [postLoop, hl]
  · have h := tryOrigins_allfail (α := JsonVal) errs e
    simp [postLoop, List.map_append, h]

/-- C10: changePct is total and never divides by a zero reference: if
the reference coerces to 0, or either input coerces to a non-finite
number, the result is exactly 0; otherwise it is the exact percentage
change of the two coerced finite values. -/
theorem c10_changePct (a b : JSVal) :
    (jsOrZeroNum b = JSNum.fin 0 → changePct a b = 0)
    ∧ (jsFiniteNum (jsOrZeroNum a) = false → changePct a b = 0)
    ∧ (jsFiniteNum (jsOrZeroNum b) = false → changePct a b = 0)
    ∧ (∀ c r : ℚ, jsOrZeroNum a = JSNum.fin c → jsOrZeroNum b = JSNum.fin r → r ≠ 0 →
        changePct a b = ((c - r) / r) * 100) := by
  refine ⟨?_, ?_, ?_, ?_⟩
  · intro h; simp [changePct, h, jsEqZero]
  · intro h
    unfold changePct
    cases ha : jsOrZeroNum a <;> simp_all [jsFiniteNum]
  · intro h
    unfold changePct
    cases hb : jsOrZeroNum b <;> simp_all [jsFiniteNum]
  · intro c r hc hr hrz
    simp [changePct, hc, hr, jsFiniteNum, jsEqZero, hrz, finPart]

/-- Witness for C10: a zero reference yields 0, and finite non-zero
inputs yield the exact percentage change. -/
theorem c10_changePct_witness :
    changePct ⟨false, JSNum.fin 150⟩ ⟨true, JSNum.nan⟩ = 0
    ∧ changePct ⟨false, JSNum.fin 150⟩ ⟨false, JSNum.fin 100⟩ = 50 := by
  constructor
  · exact (c10_changePct ⟨false, JSNum.fin 150⟩ ⟨true, JSNum.nan⟩).1 rfl
  · have h := (c10_changePct ⟨false, JSNum.fin 150⟩ ⟨false, JSNum.fin 100⟩).2.2.2
      150 100 rfl rfl (by norm_num)
    rw [h]; norm_num

/-! Helper lemmas for the identity resolver. -/

theorem leadsWith_self_append (p t : List Char) : leadsWith p (p ++ t) = true := by
  induction p with
  | nil => simp [leadsWith]
  | cons c cs ih => simp [leadsWith, ih]

theorem sdkCatch_lead (m : String) :
    leadsWith ("sdk-init-failed").data ((sdkCatch m).reason).data = true := by
  unfold sdkCatch emptyIdentity
  by_cases h : jsTrim m = ""
  · simp only [h, ne_eq, not_true_eq_false, if_neg, ite_false]
    have := leadsWith_self_append ("sdk-init-failed").data []
    simpa using this
  · simp only [h, ne_eq, not_false_eq_true, if_pos, ite_true]
    have hd : ("sdk-init-failed: " ++ jsTrim m).data
        = ("sdk-init-failed").data ++ ((": ").data ++ (jsTrim m).data) := by
      rw [String.data_append]
      have h2 : ("sdk-init-failed: ").data = ("sdk-init-failed").data ++ (": ").data := rfl
      rw [h2, List.append_assoc]
    rw [hd]
    exact leadsWith_self_append _ _

theorem c5_reason_cases (env : IdEnv) :
    ((detectViewerIdentity env).reason ∈
        (["query-param", "no-window", "not-discord-activity-host", "missing-client-id",
          "sdk-authorize-no-code", "oauth-no-access-token", "sdk-auth-user-empty",
          "sdk-authenticated"] : List String)
      ∨ leadsWith ("sdk-init-failed").data ((detectViewerIdentity env).reason).data
          = true) := by
  unfold detectViewerIdentity
  by_cases hL : pickLaunchName env ≠ ""
  · rw [if_pos hL]; left; simp
  · rw [if_neg hL]
    cases hW : env.hasWindow
    · simp only [hW, Bool.not_false, if_true]
      left; simp [emptyIdentity]
    · simp only [hW, Bool.not_true, Bool.false_eq_true, if_false]
      cases hE : jsEndsWith env.hostname ".discordsays.com"
      · simp only [hE, Bool.not_false, if_true]
        left; simp [emptyIdentity]
      · simp only [hE, Bool.not_true, Bool.false_eq_true, if_false]
        by_cases hC : env.clientId = ""
        · rw [if_pos hC]; left; simp [emptyIdentity]
        · rw [if_neg hC]
          cases hR : env.sdkReady with
          | error m => exact Or.inr (sdkCatch_lead m)
          | ok u =>
            cases hA : env.sdkAuthorize with
            | error m => exact Or.inr (sdkCatch_lead m)
            | ok auth =>
              dsimp only
              by_cases hcode : jsTrim (jsValOrEmpty (getField auth "code")) = ""
              · rw [if_pos hcode]; left; simp [emptyIdentity]
              · rw [if_neg hcode]
                cases hT : env.tokenFetch with
                | error m => exact Or.inr (sdkCatch_lead m)
                | ok token =>
                  dsimp only
                  by_cases htok : jsTrim (jsValOrEmpty (getField token "access_token")) = ""
                  · rw [if_pos htok]; left; simp [emptyIdentity]
                  · rw [if_neg htok]
                    cases hAu : env.sdkAuthenticate with
                    | error m => exact Or.inr (sdkCatch_lead m)
                    | ok me =>
                      dsimp only
                      repeat' split
                      all_goals left
                      all_goals simp [emptyIdentity]

theorem c5_guest_cases (env : IdEnv) :
    ((detectViewerIdentity env).name = "" →
      ((detectViewerIdentity env).reason ∈
          (["no-window", "not-discord-activity-host", "missing-client-id",
            "sdk-authorize-no-code", "oauth-no-access-token",
            "sdk-auth-user-empty"] : List String)
        ∨ leadsWith ("sdk-init-failed").data ((detectViewerIdentity env).reason).data
            = true)) := by
  unfold detectViewerIdentity
  by_cases hL : pickLaunchName env ≠ ""
  · rw [if_pos hL]
    intro hname
    exact absurd hname hL
  · rw [if_neg hL]
    cases hW : env.hasWindow
    · simp only [hW, Bool.not_false, if_true]
      intro _; left; simp [emptyIdentity]
    · simp only [hW, Bool.not_true, Bool.false_eq_true, if_false]
      cases hE : jsEndsWith env.hostname ".discordsays.com"
      · simp only [hE, Bool.not_false, if_true]
        intro _; left; simp [emptyIdentity]
      · simp only [hE, Bool.not_true, Bool.false_eq_true, if_false]
        by_cases hC : env.clientId = ""
        · rw [if_pos hC]; intro _; left; simp [emptyIdentity]
        · rw [if_neg hC]
          cases hR : env.sdkReady with
          | error m => exact fun _ => Or.inr (sdkCatch_lead m)
          | ok u =>
            cases hA : env.sdkAuthorize with
            | error m => exact fun _ => Or.inr (sdkCatch_lead m)
            | ok auth =>
              dsimp only
              by_cases hcode : jsTrim (jsValOrEmpty (getField auth "code")) = ""
              · rw [if_pos hcode]; intro _; left; simp [emptyIdentity]
              · rw [if_neg hcode]
                cases hT : env.tokenFetch with
                | error m => exact fun _ => Or.inr (sdkCatch_lead m)
                | ok token =>
                  dsimp only
                  by_cases htok : jsTrim (jsValOrEmpty (getField token "access_token")) = ""
                  · rw [if_pos htok]; intro _; left; simp [emptyIdentity]
                  · rw [if_neg htok]
                    cases hAu : env.sdkAuthenticate with
                    | error m => exact fun _ => Or.inr (sdkCatch_lead m)
                    | ok me =>
                      dsimp only
                      by_cases hn1 : jsTrim (jsValOrEmpty (getField (userOf me) "global_name")) ≠ ""
                      · rw [if_pos hn1, if_pos hn1]
                        intro hname; exact absurd hname hn1
                      · rw [if_neg hn1]
                        by_cases hn2 : jsTrim (jsValOrEmpty (getField (userOf me) "display_name")) ≠ ""
                        · rw [if_pos hn2, if_pos hn2]
                          intro hname; exact absurd hname hn2
                        · rw [if_neg hn2]
                          by_cases hn3 : jsTrim (jsValOrEmpty (getField (userOf me) "username")) ≠ ""
                          · rw [if_pos hn3]
                            intro hname; exact absurd hname hn3
                          · rw [if_neg hn3]
                            intro _; left; simp [emptyIdentity]

/-- C5: detectViewerIdentity never raises: every branch returns an
Identity whose reason is one of the branch-specific codes; every branch
that returns an empty name carries a failure reason; the launch branch
trusts the launch name with reason query-param; and the launch user id
is accepted exactly when, after stripping an optional leading plus sign,
it is all digits, and is discarded otherwise. -/
theorem c5_detect_identity (env : IdEnv) :
    ((detectViewerIdentity env).reason ∈
        (["query-param", "no-window", "not-discord-activity-host", "missing-client-id",
          "sdk-authorize-no-code", "oauth-no-access-token", "sdk-auth-user-empty",
          "sdk-authenticated"] : List String)
      ∨ leadsWith ("sdk-init-failed").data ((detectViewerIdentity env).reason).data
          = true)
    ∧ ((detectViewerIdentity env).name = "" →
        ((detectViewerIdentity env).reason ∈
            (["no-window", "not-discord-activity-host", "missing-client-id",
              "sdk-authorize-no-code", "oauth-no-access-token",
              "sdk-auth-user-empty"] : List String)
          ∨ leadsWith ("sdk-init-failed").data ((detectViewerIdentity env).reason).data
              = true))
    ∧ (pickLaunchName env ≠ "" →
        detectViewerIdentity env
          = { id := pickLaunchUserId env, name := pickLaunchName env,
              avatar_url := "", reason := "query-param" })
    ∧ (pickLaunchUserId env
        = (if isAllDigitsStr (stripLeadingPlus (if env.hasWindow then launchIdRaw env else ""))
           then stripLeadingPlus (if env.hasWindow then launchIdRaw env else "") else "")) := by
  refine ⟨c5_reason_cases env, c5_guest_cases env, ?_, ?_⟩
  · intro h
    unfold detectViewerIdentity
    rw [if_pos h]
  · unfold pickLaunchUserId
    cases hW : env.hasWindow
    · simp [stripLeadingPlus, leadsWith, isAllDigitsStr]
    · by_cases hr : launchIdRaw env = ""
      · simp [hr, stripLeadingPlus, leadsWith, isAllDigitsStr]
      · simp [hr]

/-- Witness for C5 at an environment with no window, and at a launch
environment with a name and a plus-prefixed all-digit user id. -/
theorem c5_detect_identity_witness :
    ((detectViewerIdentity envNoWin).reason ∈
        (["no-window", "not-discord-activity-host", "missing-client-id",
          "sdk-authorize-no-code", "oauth-no-access-token",
          "sdk-auth-user-empty"] : List String)
      ∨ leadsWith ("sdk-init-failed").data ((detectViewerIdentity envNoWin).reason).data
          = true)
    ∧ detectViewerIdentity envLaunch
      = { id := pickLaunchUserId envLaunch, name := pickLaunchName envLaunch,
          avatar_url := "", reason := "query-param" } := by
  exact ⟨(c5_detect_identity envNoWin).2.1 rfl,
         (c5_detect_identity envLaunch).2.2.1 (by decide)⟩


/-! Helper lemmas for the auto-match throttle. -/

theorem dualAutoTick_recent (tab vid : String) (busy : Bool) (ds : Option DualSnapshot)
    (lastAt now : Nat) (h : now - lastAt < 2500) :
    (dualAutoTick tab vid busy ds lastAt now).1 = none := by
  unfold dualAutoTick
  repeat' split
  all_goals first | rfl | simp_all

theorem dualAutoTick_fire_snd (tab vid : String) (busy : Bool) (ds : Option DualSnapshot)
    (lastAt now : Nat) (h : (dualAutoTick tab vid busy ds lastAt now).1.isSome = true) :
    (dualAutoTick tab vid busy ds lastAt now).2 = now := by
  revert h
  unfold dualAutoTick
  repeat' split
  all_goals first | rfl | simp_all

/-- C6: two auto-matchmaking evaluations whose clock readings are less
than 2500 ms apart fire at most one network-issuing auto action, whatever
the poll inputs of each evaluation are; and no auto action fires while
the shared busy flag is set. -/
theorem c6_throttle (tab1 vid1 : String) (busy1 : Bool) (ds1 : Option DualSnapshot)
    (tab2 vid2 : String) (busy2 : Bool) (ds2 : Option DualSnapshot)
    (lastAt t1 t2 : Nat) (hle : t1 ≤ t2) (hlt : t2 - t1 < 2500) :
    ((dualAutoTick tab1 vid1 busy1 ds1 lastAt t1).1.isSome &&
      (dualAutoTick tab2 vid2 busy2 ds2
        (dualAutoTick tab1 vid1 busy1 ds1 lastAt t1).2 t2).1.isSome) = false
    ∧ (dualAutoTick tab1 vid1 true ds1 lastAt t1).1 = none := by
  constructor
  · by_cases hf : (dualAutoTick tab1 vid1 busy1 ds1 lastAt t1).1.isSome = true
    · have hsnd := dualAutoTick_fire_snd tab1 vid1 busy1 ds1 lastAt t1 hf
      rw [hsnd]
      have hnone := dualAutoTick_recent tab2 vid2 busy2 ds2 t1 t2 hlt
      simp [hnone]
    · simp only [Bool.not_eq_true] at hf
      simp [hf]
  · unfold dualAutoTick
    repeat' split
    all_goals first | rfl | simp_all

/-- Witness for C6: a firing first evaluation suppresses a second one
1000 ms later, and a busy evaluation never fires. -/
theorem c6_throttle_witness :
    ((dualAutoTick "dual" "1" false (some ⟨none, []⟩) 0 5000).1.isSome &&
      (dualAutoTick "dual" "1" false (some ⟨none, []⟩)
        (dualAutoTick "dual" "1" false (some ⟨none, []⟩) 0 5000).2 6000).1.isSome) = false
    ∧ (dualAutoTick "dual" "1" true (some ⟨none, []⟩) 0 5000).1 = none :=
  c6_throttle "dual" "1" false (some ⟨none, []⟩) "dual" "1" false (some ⟨none, []⟩)
    0 5000 6000 (by decide) (by decide)

/-- C7: within one polling round, sub-fetch failures are isolated. In
refreshStatusAndDual, a failing status fetch sets only the status
data/error pair while a successful duel fetch is still applied, and
vice versa. In the main round load, a failing duel (or status) fetch
leaves the stocks, stats, shop and the other sub-fetch data from the
same round intact, and a failing market snapshot sets only the global
error while every other field keeps its previous value. -/
theorem c7_failure_isolation (vid nowStr m : String) (p q sv tv shv : JsonVal)
    (s : St) (hv : vid ≠ "") :
    refreshStatusAndDual vid (Except.error m) (Except.ok q) s
      = { s with statusData := none, statusError := errTextOr m "Failed to load status",
                 dualStatus := jsOrNull q, dualError := "" }
    ∧ refreshStatusAndDual vid (Except.ok p) (Except.error m) s
      = { s with statusData := jsOrNull p, statusError := "",
                 dualStatus := none, dualError := errTextOr m "Failed to load DUAL status" }
    ∧ load true vid nowStr (Except.ok sv) (Except.ok tv) (Except.ok shv)
        (Except.ok p) (Except.error m) s
      = { s with stocks := jsArrayField sv "stocks", stats := jsOrNull tv,
                 shopItems := jsArrayField shv "items", shopBucket := getField shv "bucket",
                 statusData := jsOrNull p, statusError := "",
                 dualStatus := none, dualError := errTextOr m "Failed to load DUAL status",
                 lastUpdated := nowStr, error := "", loading := false }
    ∧ load true vid nowStr (Except.ok sv) (Except.ok tv) (Except.ok shv)
        (Except.error m) (Except.ok q) s
      = { s with stocks := jsArrayField sv "stocks", stats := jsOrNull tv,
                 shopItems := jsArrayField shv "items", shopBucket := getField shv "bucket",
                 statusData := none, statusError := errTextOr m "Failed to load status",
                 dualStatus := jsOrNull q, dualError := "",
                 lastUpdated := nowStr, error := "", loading := false }
    ∧ load true vid nowStr (Except.error m) (Except.ok tv) (Except.ok shv)
        (Except.ok p) (Except.ok q) s
      = { s with error := errTextOr m "Failed to load data", loading := false } := by
  refine ⟨?_, ?_, ?_, ?_, ?_⟩ <;>
    simp [load, refreshStatusAndDual, applyStatusDual, allBoth, hv]

/-- Witness for C7: with a failing status fetch and a successful duel
fetch in the same round, only the status pair is a failure value and the
duel data is applied. -/
theorem c7_failure_isolation_witness :
    refreshStatusAndDual "1" (Except.error "E") (Except.ok (JsonVal.strV "D")) st0
      = { st0 with statusData := none, statusError := errTextOr "E" "Failed to load status",
                   dualStatus := jsOrNull (JsonVal.strV "D"), dualError := "" } :=
  (c7_failure_isolation "1" "t" "E" (JsonVal.strV "P") (JsonVal.strV "D")
    (JsonVal.strV "sv") (JsonVal.strV "tv") (JsonVal.strV "shv") st0 (by decide)).1

/-! Helper lemmas: refreshStatusAndDual leaves the guess input and the
shared message slot untouched. -/

theorem refresh_dualGuess (vid : String) (sR dR : Except String JsonVal) (s : St) :
    (refreshStatusAndDual vid sR dR s).dualGuess = s.dualGuess := by
  unfold refreshStatusAndDual applyStatusDual
  repeat' split <;> simp

theorem refresh_tradeMsg (vid : String) (sR dR : Except String JsonVal) (s : St) :
    (refreshStatusAndDual vid sR dR s).tradeMsg = s.tradeMsg := by
  unfold refreshStatusAndDual applyStatusDual
  repeat' split <;> simp

/-- C8 counterexample: an ok:false response to a guess in room ROOM1
leaves the input unchanged but produces the message DUAL guess failed:
nope, which does not name the room code. -/
theorem c8_guess_cex :
    (submitDualGuess "1" (JSNum.fin 50)
        (Except.ok (JsonVal.objV [("ok", JsonVal.boolV false), ("error", JsonVal.strV "nope")]))
        (Except.ok (JsonVal.objV [])) (Except.ok (JsonVal.objV [])) stG).tradeMsg
      = "DUAL guess failed: nope"
    ∧ currentGameCode stG = "ROOM1"
    ∧ jsIncludes "DUAL guess failed: nope" "ROOM1" = false
    ∧ (submitDualGuess "1" (JSNum.fin 50)
        (Except.ok (JsonVal.objV [("ok", JsonVal.boolV false), ("error", JsonVal.strV "nope")]))
        (Except.ok (JsonVal.objV [])) (Except.ok (JsonVal.objV [])) stG).dualGuess
      = "50" := by
  refine ⟨by decide, by decide, by decide, by decide⟩

/-- C8 as amended: local validation rejects a non-integer guess before
any network call; on an ok:true response the guess input is cleared
regardless of hint content and the hint is surfaced; on an ok:false
response the input is left unchanged and the failure message is the
DUAL-guess-failed text carrying the server error (it does not name the
room code). -/
theorem c8_guess (vid : String) (g : JSNum) (postR statusR dualR : Except String JsonVal)
    (result : JsonVal) (s : St) :
    (vid ≠ "" → currentGameCode s ≠ "" → jsIsInteger g = false →
      submitDualGuess vid g postR statusR dualR s
        = { s with tradeMsg := "DUAL guess failed: enter an integer." })
    ∧ (vid ≠ "" → currentGameCode s ≠ "" → jsIsInteger g = true →
        truthyOpt (getField result "ok") = true →
        ((submitDualGuess vid g (Except.ok result) statusR dualR s).dualGuess = ""
         ∧ (submitDualGuess vid g (Except.ok result) statusR dualR s).tradeMsg
             = (if jsTrim (jsValOrEmpty (getField result "hint")) ≠ ""
                then "DUAL guess result: " ++ jsTrim (jsValOrEmpty (getField result "hint")) ++ "."
                else "DUAL guess submitted.")))
    ∧ (vid ≠ "" → currentGameCode s ≠ "" → jsIsInteger g = true →
        truthyOpt (getField result "ok") = false →
        ((submitDualGuess vid g (Except.ok result) statusR dualR s).dualGuess = s.dualGuess
         ∧ (submitDualGuess vid g (Except.ok result) statusR dualR s).tradeMsg
             = "DUAL guess failed: " ++
               errTextOr (jsValOr (getField result "error") "Failed to submit guess")
                 "Unknown error")) := by
  refine ⟨?_, ?_, ?_⟩
  · intro hv hc hg
    simp [submitDualGuess, hv, hc, hg]
  · intro hv hc hg hok
    simp [submitDualGuess, hv, hc, hg, hok, refresh_dualGuess, refresh_tradeMsg]
  · intro hv hc hg hok
    simp [submitDualGuess, hv, hc, hg, hok]

/-- Witness for C8: a non-integer guess is rejected locally, and an
ok:true response with a hint clears the concrete input field. -/
theorem c8_guess_witness :
    submitDualGuess "1" JSNum.nan (Except.ok (JsonVal.objV []))
        (Except.ok (JsonVal.objV [])) (Except.ok (JsonVal.objV [])) stG
      = { stG with tradeMsg := "DUAL guess failed: enter an integer." }
    ∧ (submitDualGuess "1" (JSNum.fin 50)
        (Except.ok (JsonVal.objV [("ok", JsonVal.boolV true), ("hint", JsonVal.strV "higher")]))
        (Except.ok (JsonVal.objV [])) (Except.ok (JsonVal.objV [])) stG).dualGuess = "" := by
  constructor
  · exact (c8_guess "1" JSNum.nan (Except.ok (JsonVal.objV []))
      (Except.ok (JsonVal.objV [])) (Except.ok (JsonVal.objV []))
      (JsonVal.objV []) stG).1 (by decide) (by decide) rfl
  · exact ((c8_guess "1" (JSNum.fin 50) (Except.ok (JsonVal.objV []))
      (Except.ok (JsonVal.objV [])) (Except.ok (JsonVal.objV []))
      (JsonVal.objV [("ok", JsonVal.boolV true), ("hint", JsonVal.strV "higher")]) stG).2.1
      (by decide) (by decide) (by decide) (by decide)).1

/-- C9 counterexample: a duel polling round that was not yet cancelled
when it was issued, but whose owning effect is torn down before its
fetches resolve (second argument), still writes its results into state:
the status field changes from none to the fetched payload. -/
theorem c9_teardown_cex :
    (dualPollRound false true false "1" (Except.ok (JsonVal.strV "S"))
        (Except.ok (JsonVal.strV "D")) st0).statusData = some (JsonVal.strV "S")
    ∧ st0.statusData = none := ⟨rfl, rfl⟩

/-- C9 as amended: the main polling round checks the mounted flag before
every state write, so a main round whose results arrive entirely after
teardown leaves the state unchanged; the duel polling round checks
cancellation and the busy flag only before issuing its round, so it is a
no-op when cancelled or busy at tick time, but performs no re-check
after its fetches resolve. -/
theorem c9_teardown_guard (vid nowStr : String)
    (r1 r2 r3 r4 r5 sR dR : Except String JsonVal) (cR : Bool) (s : St) :
    load false vid nowStr r1 r2 r3 r4 r5 s = s
    ∧ dualPollRound true cR false vid sR dR s = s
    ∧ dualPollRound false cR true vid sR dR s = s := by
  refine ⟨?_, rfl, rfl⟩
  cases h : allBoth r1 r2 <;> simp [load, h]

end Stonks
